import Mathlib

/-!
# Verification of the AVIF encoder's pixel-buffer reification layer

Shallow embedding of `src/image/src/codecs/avif/encoder.rs`: the typed
buffer reinterpreter (`cast_buffer`), the color-format dispatcher
(`encode_as_img`), the encoder configuration constructors, and the outer
`write_image` orchestration.

Modelling conventions:
* raw byte buffers are `List Nat` (one entry per byte);
* a typed channel element of byte width `W` is the `List Nat` of its `W`
  bytes, so byte-level identity is literal list equality and no numeric
  encoding/endianness assumptions are needed;
* pointer addresses are modelled by an explicit `addr : Nat` argument
  (the start address of the caller's byte slice), which is all the
  alignment checks of `bytemuck::try_cast_slice` inspect;
* the output writer is modelled as the list of bytes written so far;
* the external `ravif::encode_rgba` capability is a function parameter.

Pieces of the repository that the encoder calls but that are outside the
provided source slice (`crate::color`'s `ColorType` enumeration and
`FromColor` conversions, `crate::buffer`'s `ImageBuffer::from_raw` and
`ConvertBuffer`) are modelled from the specification and marked as such
in their doc comments.
-/

namespace AvifEnc

/-- A raw byte value (the model does not need the `< 256` bound). -/
abbrev Byte := Nat

/-- The image format tag carried by errors; only AVIF is relevant here. -/
inductive ImageFormat where
  | Avif
deriving DecidableEq

/-- Modelled from the spec: the color-type enumeration (`crate::color`,
outside this source slice) is a closed set of layouts, "8-bit/16-bit
variants of {single-channel luma, luma+alpha, RGB, BGR, RGBA, BGRA}".
The 16-bit BGR/BGRA variants have no arm in `encode_as_img`'s match and
fall to its catch-all unsupported arm. -/
inductive ColorType where
  | L8 | La8 | Rgb8 | Bgr8 | Rgba8 | Bgra8
  | L16 | La16 | Rgb16 | Rgba16 | Bgr16 | Bgra16
deriving DecidableEq

/-- Channels (subpixel samples) per pixel of each color type. -/
def ColorType.channelCount : ColorType → Nat
  | .L8 => 1
  | .La8 => 2
  | .Rgb8 => 3
  | .Bgr8 => 3
  | .Rgba8 => 4
  | .Bgra8 => 4
  | .L16 => 1
  | .La16 => 2
  | .Rgb16 => 3
  | .Rgba16 => 4
  | .Bgr16 => 3
  | .Bgra16 => 4

/-- The color types with an explicit arm in `encode_as_img`'s match;
all others hit the catch-all unsupported-color arm. -/
def ColorType.isSupported : ColorType → Bool
  | .L8 | .La8 | .Rgb8 | .Bgr8 | .Rgba8 | .Bgra8 => true
  | .L16 | .La16 | .Rgb16 | .Rgba16 => true
  | .Bgr16 | .Bgra16 => false

/-- `ParameterErrorKind` of `crate::error`, as used by the encoder. -/
inductive ParameterErrorKind where
  | DimensionMismatch
  | Generic (message : String)
deriving DecidableEq

/-- The `ImageError` variants produced by this encoder. -/
inductive ImageError where
  | Parameter (kind : ParameterErrorKind)
  | Unsupported (format : ImageFormat) (color : ColorType)
  | Encoding (format : ImageFormat) (diagnostic : String)
deriving DecidableEq

/-- `ravif::ColorSpace`. -/
inductive RavifColorSpace where
  | RGB
  | YCbCr
deriving DecidableEq

/-- `ColorSpace` enumeration of the encoder module (the hidden
non-exhaustive marker variant is uninhabited and omitted). -/
inductive ColorSpace where
  | Srgb
  | Bt709
deriving DecidableEq

/-- `ColorSpace::to_ravif`. -/
def ColorSpace.toRavif : ColorSpace → RavifColorSpace
  | .Srgb => .RGB
  | .Bt709 => .YCbCr

/-- `ravif::Config` as populated by this encoder. -/
structure Config where
  quality : Nat
  alpha_quality : Nat
  speed : Nat
  premultiplied_alpha : Bool
  color_space : RavifColorSpace
deriving DecidableEq

/-- `AvifEncoder<W>`: the writer `inner: W` is modelled by the list of
bytes written to it so far, `fallback` is the reusable scratch buffer. -/
structure AvifEncoder where
  written : List Byte
  fallback : List Byte
  config : Config
deriving DecidableEq

/-- `ravif::RGBA8`: one 4-channel 8-bit pixel. -/
structure RGBA8 where
  r : Byte
  g : Byte
  b : Byte
  a : Byte
deriving DecidableEq

/-- The four bytes of an `RGBA8` pixel in memory order. -/
def RGBA8.toBytes (p : RGBA8) : List Byte := [p.r, p.g, p.b, p.a]

/-- `bytemuck::PodCastError` variants relevant to slice casts. -/
inductive PodCastError where
  | TargetAlignmentGreaterAndInputNotAligned
  | OutputSliceWouldHaveSlop
  | SizeMismatch
deriving DecidableEq

/-- The `Debug` rendering used by `format!("{:?}", err)`. -/
def PodCastError.debugString : PodCastError → String
  | .TargetAlignmentGreaterAndInputNotAligned =>
      "TargetAlignmentGreaterAndInputNotAligned"
  | .OutputSliceWouldHaveSlop => "OutputSliceWouldHaveSlop"
  | .SizeMismatch => "SizeMismatch"

/-- `bytemuck::try_cast_slice::<u8, Channel>` on a slice of `len` bytes
starting at address `addr`, for a target element type of byte width
`size` and alignment `align` (for the `u16` channels used by the encoder
both are 2). The source type `u8` has size 1 and alignment 1. bytemuck
checks target alignment first, then handles the equal-size cast, then
zero-sized types, then divisibility of the byte length. -/
def tryCastSlice (size align addr len : Nat) : Except PodCastError Unit :=
  if align > 1 ∧ addr % align ≠ 0 then
    .error .TargetAlignmentGreaterAndInputNotAligned
  else if size = 1 then
    .ok ()
  else if size = 0 then
    .error .SizeMismatch
  else if len % size = 0 then
    .ok ()
  else
    .error .OutputSliceWouldHaveSlop

/-- `<[u8]>::copy_from_slice` into the byte view of a typed buffer:
each destination element (a list of bytes) has its bytes replaced by the
next run of source bytes, in order. Lengths agree at the call site
(`copy_from_slice` would panic otherwise). -/
def copyFromSlice : List (List Byte) → List Byte → List (List Byte)
  | [], _ => []
  | e :: es, src => src.take e.length :: copyFromSlice es (src.drop e.length)

/-- `Cow<[Channel]>`: either the borrowed input slice itself (zero copy)
or a freshly allocated owned buffer of typed elements, each element
carried as its byte chunk. -/
inductive BufCow where
  | Borrowed
  | Owned (data : List (List Byte))
deriving DecidableEq

/-- The typed elements a `BufCow` denotes over source bytes `buf` for
element width `size`: a borrowed slice views `buf` in place, element `i`
occupying bytes `[i*size, (i+1)*size)`; an owned buffer carries its own
elements. -/
def BufCow.elems (size : Nat) (buf : List Byte) : BufCow → List (List Byte)
  | .Borrowed => (List.range (buf.length / size)).map
      (fun i => (buf.drop (i * size)).take size)
  | .Owned data => data

/-- `cast_buffer::<Channel>` of the encoder: borrow when
`try_cast_slice` succeeds; on slop, fail with `DimensionMismatch`; on
misalignment, fail with `DimensionMismatch` when the length is not a
multiple of the element width, otherwise allocate `buf.len()/size`
zero-initialized elements (`vec![Channel::zero(); len]`), byte-copy the
source into them, and return the owned buffer; any other cast error
becomes a generic parameter error with the debug string. -/
def castBuffer (size align : Nat) (addr : Nat) (buf : List Byte) :
    Except ImageError BufCow :=
  match tryCastSlice size align addr buf.length with
  | .ok _ => .ok .Borrowed
  | .error .OutputSliceWouldHaveSlop =>
      .error (.Parameter .DimensionMismatch)
  | .error .TargetAlignmentGreaterAndInputNotAligned =>
      if buf.length % size ≠ 0 then
        .error (.Parameter .DimensionMismatch)
      else
        .ok (.Owned (copyFromSlice
          (List.replicate (buf.length / size) (List.replicate size 0)) buf))
  | .error e => .error (.Parameter (.Generic e.debugString))

/-- A typed `ImageBuffer<P, &[P::Subpixel]>`: per-channel elements (each
a byte chunk) with the pixel geometry. -/
structure GenImage where
  width : Nat
  height : Nat
  channels : Nat
  subpixels : List (List Byte)
deriving DecidableEq

/-- `try_from_raw::<P>`: wraps `ImageBuffer::from_raw`, turning a `None`
into `DimensionMismatch`. Modelled from the spec: `ImageBuffer::from_raw`
(`crate::buffer`, outside this source slice) validates the container
length against the byte count implied by `(width, height, format)` —
"Validate `raw.bytes.len()` equals the expected byte count for
`(width, height, format)`; on mismatch, fail with dimension-mismatch." -/
def tryFromRaw (channels : Nat) (subpixels : List (List Byte))
    (width height : Nat) : Except ImageError GenImage :=
  if subpixels.length = width * height * channels then
    .ok ⟨width, height, channels, subpixels⟩
  else
    .error (.Parameter .DimensionMismatch)

/-- `img.pixels().len()`: the number of whole pixels the container
holds (`width * height` once `from_raw` has validated the length). -/
def GenImage.pixelCount (img : GenImage) : Nat :=
  img.subpixels.length / img.channels

/-- The pixels of a typed image: pixel `i` is the `channels` consecutive
subpixel elements starting at index `i * channels`. -/
def GenImage.pixels (img : GenImage) : List (List (List Byte)) :=
  (List.range img.pixelCount).map
    (fun i => (img.subpixels.drop (i * img.channels)).take img.channels)

/-- Modelled from the spec: the `FromColor`/`ConvertBuffer` conversion
capability (`crate::color` and `crate::buffer`, outside this source
slice) converts one pixel of a supported source layout into the 4×8-bit
target layout — lossless for 8-bit sources, deterministic narrowing
(high byte of the little-endian pair) for 16-bit sources. Helper: the
8-bit channel at index `i` of a pixel. -/
def sub8 (px : List (List Byte)) (i : Nat) : Byte := (px.getD i []).getD 0 0

/-- Modelled from the spec: the narrowed 8-bit value of the 16-bit
channel at index `i` of a pixel (high byte of the little-endian pair). -/
def sub16 (px : List (List Byte)) (i : Nat) : Byte := (px.getD i []).getD 1 0

/-- Modelled from the spec: `Rgba<u8>: FromColor<Luma<u8>>`. -/
def lumaToRgba (px : List (List Byte)) : RGBA8 :=
  ⟨sub8 px 0, sub8 px 0, sub8 px 0, 255⟩

/-- Modelled from the spec: `Rgba<u8>: FromColor<LumaA<u8>>`. -/
def lumaAToRgba (px : List (List Byte)) : RGBA8 :=
  ⟨sub8 px 0, sub8 px 0, sub8 px 0, sub8 px 1⟩

/-- Modelled from the spec: `Rgba<u8>: FromColor<Rgb<u8>>`. -/
def rgbToRgba (px : List (List Byte)) : RGBA8 :=
  ⟨sub8 px 0, sub8 px 1, sub8 px 2, 255⟩

/-- Modelled from the spec: `Rgba<u8>: FromColor<Bgr<u8>>`. -/
def bgrToRgba (px : List (List Byte)) : RGBA8 :=
  ⟨sub8 px 2, sub8 px 1, sub8 px 0, 255⟩

/-- Modelled from the spec: `Rgba<u8>: FromColor<Bgra<u8>>`. -/
def bgraToRgba (px : List (List Byte)) : RGBA8 :=
  ⟨sub8 px 2, sub8 px 1, sub8 px 0, sub8 px 3⟩

/-- Modelled from the spec: `Rgba<u8>: FromColor<Luma<u16>>`. -/
def luma16ToRgba (px : List (List Byte)) : RGBA8 :=
  ⟨sub16 px 0, sub16 px 0, sub16 px 0, 255⟩

/-- Modelled from the spec: `Rgba<u8>: FromColor<LumaA<u16>>`. -/
def lumaA16ToRgba (px : List (List Byte)) : RGBA8 :=
  ⟨sub16 px 0, sub16 px 0, sub16 px 0, sub16 px 1⟩

/-- Modelled from the spec: `Rgba<u8>: FromColor<Rgb<u16>>`. -/
def rgb16ToRgba (px : List (List Byte)) : RGBA8 :=
  ⟨sub16 px 0, sub16 px 1, sub16 px 2, 255⟩

/-- Modelled from the spec: `Rgba<u8>: FromColor<Rgba<u16>>`. -/
def rgba16ToRgba (px : List (List Byte)) : RGBA8 :=
  ⟨sub16 px 0, sub16 px 1, sub16 px 2, sub16 px 3⟩

/-- Which backing storage a returned `Img<&[RGBA8]>` view points into:
the caller's input bytes (zero-copy) or the session's scratch buffer. -/
inductive PixelSource where
  | input
  | fallback
deriving DecidableEq

/-- `ravif::Img<&[RGBA8]>`: a typed pixel view with its geometry and,
in the model, the identity of its backing storage. -/
structure Img where
  source : PixelSource
  width : Nat
  height : Nat
deriving DecidableEq

/-- The pixel length of an `Img` view (`as_pixels` exposes
`len / size_of::<RGBA8>()` pixels over the backing bytes). -/
def Img.viewLen (data fallback : List Byte) (img : Img) : Nat :=
  match img.source with
  | .input => data.length / 4
  | .fallback => fallback.length / 4

/-- `convert_into`: convert the typed image into RGBA8 pixels
(`image.convert()`), store the raw converted bytes into the scratch
buffer (`*buf = image.into_raw()`, replacing its previous contents),
and return an `Img` view over the scratch buffer with the image's
dimensions. `conv` is the per-pixel `FromColor` conversion for `P`. -/
def convertInto (conv : List (List Byte) → RGBA8) (image : GenImage) :
    Img × List Byte :=
  let converted := image.pixels.map conv
  let raw := (converted.map RGBA8.toBytes).flatten
  (⟨.fallback, image.width, image.height⟩, raw)

/-- The `DimensionMismatch` parameter error. -/
def dimErr : ImageError := .Parameter .DimensionMismatch

/-- `encode_as_img`: the color-format dispatcher. Takes the session's
scratch buffer, the raw bytes with their start address `addr`, the
dimensions and the color tag; returns the prepared view (or error)
together with the scratch buffer's new contents. The `u16` channels of
the 16-bit arms have byte width 2 and alignment 2. -/
def encodeAsImg (fallback : List Byte) (data : List Byte) (addr : Nat)
    (width height : Nat) (color : ColorType) :
    Except ImageError Img × List Byte :=
  match color with
  | .Rgba8 =>
    match tryFromRaw 4 (data.map (fun b => [b])) width height with
    | .error e => (.error e, fallback)
    | .ok img =>
      if img.pixelCount = 0 then
        (.error dimErr, fallback)
      else
        (.ok ⟨.input, width, height⟩, fallback)
  | .L8 =>
    match tryFromRaw 1 (data.map (fun b => [b])) width height with
    | .error e => (.error e, fallback)
    | .ok image =>
      let r := convertInto lumaToRgba image
      (.ok r.fst, r.snd)
  | .La8 =>
    match tryFromRaw 2 (data.map (fun b => [b])) width height with
    | .error e => (.error e, fallback)
    | .ok image =>
      let r := convertInto lumaAToRgba image
      (.ok r.fst, r.snd)
  | .Rgb8 =>
    match tryFromRaw 3 (data.map (fun b => [b])) width height with
    | .error e => (.error e, fallback)
    | .ok image =>
      let r := convertInto rgbToRgba image
      (.ok r.fst, r.snd)
  | .Bgr8 =>
    match tryFromRaw 3 (data.map (fun b => [b])) width height with
    | .error e => (.error e, fallback)
    | .ok image =>
      let r := convertInto bgrToRgba image
      (.ok r.fst, r.snd)
  | .Bgra8 =>
    match tryFromRaw 4 (data.map (fun b => [b])) width height with
    | .error e => (.error e, fallback)
    | .ok image =>
      let r := convertInto bgraToRgba image
      (.ok r.fst, r.snd)
  | .L16 =>
    match castBuffer 2 2 addr data with
    | .error e => (.error e, fallback)
    | .ok cow =>
      match tryFromRaw 1 (cow.elems 2 data) width height with
      | .error e => (.error e, fallback)
      | .ok image =>
        let r := convertInto luma16ToRgba image
        (.ok r.fst, r.snd)
  | .La16 =>
    match castBuffer 2 2 addr data with
    | .error e => (.error e, fallback)
    | .ok cow =>
      match tryFromRaw 2 (cow.elems 2 data) width height with
      | .error e => (.error e, fallback)
      | .ok image =>
        let r := convertInto lumaA16ToRgba image
        (.ok r.fst, r.snd)
  | .Rgb16 =>
    match castBuffer 2 2 addr data with
    | .error e => (.error e, fallback)
    | .ok cow =>
      match tryFromRaw 3 (cow.elems 2 data) width height with
      | .error e => (.error e, fallback)
      | .ok image =>
        let r := convertInto rgb16ToRgba image
        (.ok r.fst, r.snd)
  | .Rgba16 =>
    match castBuffer 2 2 addr data with
    | .error e => (.error e, fallback)
    | .ok cow =>
      match tryFromRaw 4 (cow.elems 2 data) width height with
      | .error e => (.error e, fallback)
      | .ok image =>
        let r := convertInto rgba16ToRgba image
        (.ok r.fst, r.snd)
  | .Bgr16 => (.error (.Unsupported .Avif .Bgr16), fallback)
  | .Bgra16 => (.error (.Unsupported .Avif .Bgra16), fallback)

/-- `AvifEncoder::new_with_speed_quality(w, speed, quality)`: clamp
quality to 0–100 and speed to 0–10, mirror quality into alpha_quality,
fix premultiplied_alpha to false and the color space to RGB; the writer
starts with nothing written and the scratch buffer empty (`vec![]`). -/
def newWithSpeedQuality (speed quality : Nat) : AvifEncoder :=
  { written := []
    fallback := []
    config :=
      { quality := min quality 100
        alpha_quality := min quality 100
        speed := min speed 10
        premultiplied_alpha := false
        color_space := .RGB } }

/-- `AvifEncoder::new(w)`. -/
def AvifEncoder.new : AvifEncoder := newWithSpeedQuality 1 100

/-- `AvifEncoder::with_colorspace`. -/
def AvifEncoder.withColorspace (e : AvifEncoder) (cs : ColorSpace) :
    AvifEncoder :=
  { e with config := { e.config with color_space := cs.toRavif } }

/-- `AvifEncoder::set_color`: does not currently do anything. -/
def setColor (e : AvifEncoder) (_color : ColorType) : AvifEncoder := e

/-- `AvifEncoder::write_image`: prepare the typed view with
`encode_as_img` (propagating its error unchanged), hand it to the
external `ravif::encode_rgba` capability `encodeRgba` with the config
captured before preparation, wrap an encoder failure as
`ImageError::Encoding` carrying the AVIF format identity, and on
success append the returned payload to the writer. -/
def writeImage (enc : AvifEncoder) (data : List Byte) (addr : Nat)
    (width height : Nat) (color : ColorType)
    (encodeRgba : Img → Config → Except String (List Byte)) :
    Except ImageError Unit × AvifEncoder :=
  let enc := setColor enc color
  let config := enc.config
  match encodeAsImg enc.fallback data addr width height color with
  | (.error e, fb) => (.error e, { enc with fallback := fb })
  | (.ok img, fb) =>
    match encodeRgba img config with
    | .error err =>
        (.error (.Encoding .Avif err), { enc with fallback := fb })
    | .ok payload =>
        (.ok (), { enc with fallback := fb, written := enc.written ++ payload })

/-! ## Helper lemmas -/

/-- `copy_from_slice` fills exactly as many elements as the destination
holds. -/
theorem copyFromSlice_length (dst : List (List Byte)) (src : List Byte) :
    (copyFromSlice dst src).length = dst.length := by
  induction dst generalizing src with
  | nil => rfl
  | cons e es ih => simp [copyFromSlice, ih]

/-- Copying a byte slice into a zero-initialized typed buffer of exactly
matching total size reproduces the source bytes. -/
theorem copyFromSlice_replicate_flatten (size len : Nat) (src : List Byte)
    (h : src.length = len * size) :
    (copyFromSlice (List.replicate len (List.replicate size 0)) src).flatten
      = src := by
  induction len generalizing src with
  | zero =>
    have : src = [] := List.eq_nil_of_length_eq_zero (by simpa using h)
    simp [this, copyFromSlice]
  | succ n ih =>
    have hdrop : (src.drop size).length = n * size := by
      simp [List.length_drop, h, Nat.succ_mul]
    calc (copyFromSlice (List.replicate (n + 1) (List.replicate size 0))
            src).flatten
        = src.take size ++ (copyFromSlice
            (List.replicate n (List.replicate size 0)) (src.drop size)).flatten
          := by simp [List.replicate_succ, copyFromSlice]
      _ = src.take size ++ src.drop size := by rw [ih _ hdrop]
      _ = src := List.take_append_drop _ _

/-- The raw converted bytes of `convert_into` hold four bytes per source
pixel. -/
theorem convertInto_raw_length (conv : List (List Byte) → RGBA8)
    (image : GenImage) :
    ((convertInto conv image).snd).length = image.pixelCount * 4 := by
  have flat : ∀ L : List RGBA8,
      ((L.map RGBA8.toBytes).flatten).length = L.length * 4 := by
    intro L
    induction L with
    | nil => rfl
    | cons x xs ih => simp [RGBA8.toBytes, ih]; omega
  show ((((image.pixels).map conv).map RGBA8.toBytes).flatten).length = _
  rw [flat]
  simp [GenImage.pixels]

/-! ## Claim theorems -/

/-- C10: the default constructor `AvifEncoder::new(w)` delegates to
`new_with_speed_quality(w, 1, 100)`, so the stored configuration has
speed 1, quality 100 and alpha quality 100. -/
theorem C10_default_speed_quality :
    AvifEncoder.new.config.speed = 1 ∧
    AvifEncoder.new.config.quality = 100 ∧
    AvifEncoder.new.config.alpha_quality = 100 :=
  ⟨rfl, rfl, rfl⟩

/-- C5: for every caller-supplied quality and speed, construction
saturates quality into 0–100 and speed into 0–10 and never fails (it is
a total function); in particular quality=255, speed=255 store 100 and
10. -/
theorem C5_clamping :
    (∀ speed quality : Nat,
      (newWithSpeedQuality speed quality).config.quality = min quality 100 ∧
      (newWithSpeedQuality speed quality).config.speed = min speed 10 ∧
      (newWithSpeedQuality speed quality).config.quality ≤ 100 ∧
      (newWithSpeedQuality speed quality).config.speed ≤ 10) ∧
    (newWithSpeedQuality 255 255).config.quality = 100 ∧
    (newWithSpeedQuality 255 255).config.speed = 10 :=
  ⟨fun _ _ => ⟨rfl, rfl, min_le_right _ _, min_le_right _ _⟩, rfl, rfl⟩

/-- C6: every constructed configuration has alpha_quality equal to the
clamped quality and premultiplied_alpha false; `with_colorspace`
preserves both, and no encode path (`write_image`) ever changes the
stored configuration, in particular never sets premultiplied_alpha. -/
theorem C6_alpha_mirror_no_premultiply :
    (∀ speed quality : Nat,
      (newWithSpeedQuality speed quality).config.alpha_quality =
        (newWithSpeedQuality speed quality).config.quality ∧
      (newWithSpeedQuality speed quality).config.premultiplied_alpha = false) ∧
    (∀ (e : AvifEncoder) (cs : ColorSpace),
      (e.withColorspace cs).config.alpha_quality = e.config.alpha_quality ∧
      (e.withColorspace cs).config.quality = e.config.quality ∧
      (e.withColorspace cs).config.premultiplied_alpha =
        e.config.premultiplied_alpha) ∧
    (∀ (enc : AvifEncoder) (data : List Byte) (addr w h : Nat)
        (color : ColorType)
        (encodeRgba : Img → Config → Except String (List Byte)),
      ((writeImage enc data addr w h color encodeRgba).snd).config =
        enc.config) := by
  refine ⟨fun _ _ => ⟨rfl, rfl⟩, fun e cs => ⟨rfl, rfl, rfl⟩,
    fun enc data addr w h color f => ?_⟩
  unfold writeImage setColor
  rcases hm : encodeAsImg enc.fallback data addr w h color with ⟨res, fb⟩
  cases res with
  | error e => simp [hm]
  | ok img => cases hf : f img enc.config <;> simp [hm, hf]

/-- C2: reinterpreting a byte slice whose length is not an exact
multiple of the (positive) target element width fails with
DimensionMismatch regardless of alignment; the function is total (never
panics) and the error branch returns no owned buffer (never
allocates). -/
theorem C2_slop_rejected (size align addr : Nat) (buf : List Byte)
    (hsize : 0 < size) (hlen : buf.length % size ≠ 0) :
    castBuffer size align addr buf = .error (.Parameter .DimensionMismatch)
    := by
  have h0 : size ≠ 0 := Nat.pos_iff_ne_zero.mp hsize
  have h1 : size ≠ 1 := by
    rintro rfl
    simp [Nat.mod_one] at hlen
  unfold castBuffer tryCastSlice
  by_cases hal : align > 1 ∧ addr % align ≠ 0
  · simp [hal, hlen]
  · simp [hal, h0, h1, hlen]

/-- C2 witness: a three-byte slice cast to two-byte elements fails with
DimensionMismatch. -/
theorem C2_slop_rejected_witness :
    0 < 2 ∧ ([1, 2, 3] : List Byte).length % 2 ≠ 0 ∧
    castBuffer 2 2 0 [1, 2, 3] = .error (.Parameter .DimensionMismatch) :=
  ⟨by decide, by decide,
    C2_slop_rejected 2 2 0 [1, 2, 3] (by decide) (by decide)⟩

/-- C3: reinterpreting a byte slice whose length is an exact multiple of
the element width but whose start address is misaligned yields an owned
buffer of `len/size` (zero-initialized, then overwritten) elements whose
flattened bytes are identical to the source slice. -/
theorem C3_misaligned_owned_copy (size align addr : Nat) (buf : List Byte)
    (_hsize : 0 < size) (hal : 1 < align) (haddr : addr % align ≠ 0)
    (hdvd : buf.length % size = 0) :
    ∃ data,
      castBuffer size align addr buf = .ok (.Owned data) ∧
      data.length = buf.length / size ∧
      data.flatten = buf := by
  refine ⟨copyFromSlice
      (List.replicate (buf.length / size) (List.replicate size 0)) buf,
    ?_, ?_, ?_⟩
  · unfold castBuffer tryCastSlice
    simp [hal, haddr, hdvd]
  · rw [copyFromSlice_length, List.length_replicate]
  · exact copyFromSlice_replicate_flatten size (buf.length / size) buf
      (Nat.div_mul_cancel (Nat.dvd_of_mod_eq_zero hdvd)).symm

/-- C3 witness: four bytes at odd address 1, cast to two-byte elements,
are copied into an owned buffer of two elements preserving the bytes. -/
theorem C3_misaligned_owned_copy_witness :
    0 < 2 ∧ 1 < 2 ∧ 1 % 2 ≠ 0 ∧ ([10, 20, 30, 40] : List Byte).length % 2 = 0 ∧
    (∃ data,
      castBuffer 2 2 1 [10, 20, 30, 40] = .ok (.Owned data) ∧
      data.length = ([10, 20, 30, 40] : List Byte).length / 2 ∧
      data.flatten = [10, 20, 30, 40]) :=
  ⟨by decide, by decide, by decide, by decide,
    C3_misaligned_owned_copy 2 2 1 [10, 20, 30, 40]
      (by decide) (by decide) (by decide) (by decide)⟩

/-- C4: on the native RGBA8 path with a length-correct, nonzero-pixel
buffer, the dispatcher returns a view whose backing storage is the
caller's input bytes (zero copy) and leaves the scratch buffer exactly
as it was (zero allocation into the session state). -/
theorem C4_native_zero_copy (fallback data : List Byte) (addr w h : Nat)
    (hlen : data.length = w * h * 4) (hpos : 0 < w * h) :
    encodeAsImg fallback data addr w h .Rgba8 =
      (.ok ⟨.input, w, h⟩, fallback) ∧
    Img.viewLen data fallback ⟨.input, w, h⟩ = w * h := by
  have hml : (data.map (fun b => [b])).length = w * h * 4 := by simp [hlen]
  constructor
  · unfold encodeAsImg tryFromRaw GenImage.pixelCount
    simp only [hml, if_true, reduceIte]
    simp [Nat.mul_div_cancel _ (show 0 < 4 by norm_num),
      Nat.pos_iff_ne_zero.mp hpos]
  · show data.length / 4 = w * h
    rw [hlen, Nat.mul_div_cancel _ (show 0 < 4 by norm_num)]

/-- C4 witness: a 1×1 RGBA8 image of four bytes is returned as a
borrowed view over the input and the scratch buffer `[9]` is kept. -/
theorem C4_native_zero_copy_witness :
    ([1, 2, 3, 4] : List Byte).length = 1 * 1 * 4 ∧ 0 < 1 * 1 ∧
    (encodeAsImg [9] [1, 2, 3, 4] 0 1 1 .Rgba8 =
      (.ok ⟨.input, 1, 1⟩, [9]) ∧
     Img.viewLen [1, 2, 3, 4] [9] ⟨.input, 1, 1⟩ = 1 * 1) :=
  ⟨by decide, by decide,
    C4_native_zero_copy [9] [1, 2, 3, 4] 0 1 1 (by decide) (by decide)⟩

/-- C1 counterexample: the zero-pixel rejection does not hold for every
supported color format — preparing an L8 image with width = height = 0
and an empty buffer succeeds instead of failing with DimensionMismatch.
-/
theorem C1_counterexample :
    ColorType.L8.isSupported = true ∧
    (encodeAsImg [] [] 0 0 0 .L8).fst = .ok ⟨.fallback, 0, 0⟩ :=
  ⟨rfl, rfl⟩

/-- C1 (amended): for the native RGBA8 format, preparing an image whose
width or height is zero fails with DimensionMismatch — either the
declared byte count does not match, or the image passes the length check
empty and the explicit zero-pixel check rejects it. -/
theorem C1_native_zero_rejected (fallback data : List Byte)
    (addr w h : Nat) (hzero : w * h = 0) :
    (encodeAsImg fallback data addr w h .Rgba8).fst =
      .error (.Parameter .DimensionMismatch) := by
  unfold encodeAsImg tryFromRaw GenImage.pixelCount
  by_cases hl : data.length = w * h * 4
  · have hml : (data.map (fun b => [b])).length = w * h * 4 := by simp [hl]
    simp [hml, hzero, dimErr]
  · simp [hl]

/-- C1 witness (for the amended claim): width 0 with an empty buffer on
the native path is rejected with DimensionMismatch. -/
theorem C1_native_zero_rejected_witness :
    0 * 3 = 0 ∧
    (encodeAsImg [] [] 0 0 3 .Rgba8).fst =
      .error (.Parameter .DimensionMismatch) :=
  ⟨rfl, C1_native_zero_rejected [] [] 0 0 3 rfl⟩

/-- C7: for a color tag outside the supported set, `write_image` fails
with an unsupported-color error that carries the offending tag (and the
AVIF format identity) and the writer and scratch buffer are left
untouched — zero bytes are written to the sink. -/
theorem C7_unsupported_color (enc : AvifEncoder) (data : List Byte)
    (addr w h : Nat) (color : ColorType)
    (encodeRgba : Img → Config → Except String (List Byte))
    (hun : color.isSupported = false) :
    (writeImage enc data addr w h color encodeRgba).fst =
      .error (.Unsupported .Avif color) ∧
    ((writeImage enc data addr w h color encodeRgba).snd).written =
      enc.written ∧
    ((writeImage enc data addr w h color encodeRgba).snd).fallback =
      enc.fallback := by
  cases color <;>
    first
      | exact ⟨rfl, rfl, rfl⟩
      | simp [ColorType.isSupported] at hun

/-- C7 witness: Bgr16 is rejected as unsupported, naming the tag, with
nothing written. -/
theorem C7_unsupported_color_witness :
    ColorType.Bgr16.isSupported = false ∧
    ((writeImage AvifEncoder.new [1] 0 1 1 .Bgr16
        (fun _ _ => .ok [7])).fst = .error (.Unsupported .Avif .Bgr16) ∧
     ((writeImage AvifEncoder.new [1] 0 1 1 .Bgr16
        (fun _ _ => .ok [7])).snd).written = AvifEncoder.new.written ∧
     ((writeImage AvifEncoder.new [1] 0 1 1 .Bgr16
        (fun _ _ => .ok [7])).snd).fallback = AvifEncoder.new.fallback) :=
  ⟨rfl, C7_unsupported_color AvifEncoder.new [1] 0 1 1 .Bgr16
    (fun _ _ => .ok [7]) rfl⟩

/-- Common shape of the five 8-bit non-native arms of `encode_as_img`:
validate the length, then convert into the scratch buffer and return a
view over it with the image's dimensions. -/
theorem nonNativeArm (fallback data : List Byte) (w h c : Nat)
    (conv : List (List Byte) → RGBA8) (hc : 0 < c)
    (hlen : data.length = w * h * c) :
    ∃ fb2,
      (match tryFromRaw c (data.map (fun b => [b])) w h with
       | .error e => ((.error e : Except ImageError Img), fallback)
       | .ok image =>
         let r := convertInto conv image
         (.ok r.fst, r.snd)) = (.ok ⟨.fallback, w, h⟩, fb2) ∧
      fb2.length = w * h * 4 ∧
      Img.viewLen data fb2 ⟨.fallback, w, h⟩ = w * h := by
  have hml : (data.map (fun b => [b])).length = w * h * c := by simp [hlen]
  have hok : tryFromRaw c (data.map (fun b => [b])) w h =
      .ok ⟨w, h, c, data.map (fun b => [b])⟩ := by
    unfold tryFromRaw
    simp [hml]
  rw [hok]
  have hpix : (GenImage.pixelCount ⟨w, h, c, data.map (fun b => [b])⟩)
      = w * h := by
    show (data.map (fun b => [b])).length / c = w * h
    rw [hml, Nat.mul_div_cancel _ hc]
  have hlen2 : ((convertInto conv
      ⟨w, h, c, data.map (fun b => [b])⟩).snd).length = w * h * 4 := by
    rw [convertInto_raw_length, hpix]
  refine ⟨(convertInto conv ⟨w, h, c, data.map (fun b => [b])⟩).snd,
    rfl, hlen2, ?_⟩
  show ((convertInto conv ⟨w, h, c, data.map (fun b => [b])⟩).snd).length / 4
      = w * h
  rw [hlen2, Nat.mul_div_cancel _ (show 0 < 4 by norm_num)]

/-- C8: for each supported non-native 8-bit format with channel count c,
preparing a buffer of exactly `width*height*c` bytes succeeds and yields
a typed RGBA8 view over the scratch buffer of exactly `width*height`
pixels (the converted buffer holds `width*height*4` bytes). -/
theorem C8_8bit_formats (fallback data : List Byte) (addr w h : Nat)
    (color : ColorType)
    (hc : color = .L8 ∨ color = .La8 ∨ color = .Rgb8 ∨ color = .Bgr8 ∨
      color = .Bgra8)
    (hlen : data.length = w * h * color.channelCount) :
    ∃ fb2,
      encodeAsImg fallback data addr w h color =
        (.ok ⟨.fallback, w, h⟩, fb2) ∧
      fb2.length = w * h * 4 ∧
      Img.viewLen data fb2 ⟨.fallback, w, h⟩ = w * h := by
  rcases hc with rfl | rfl | rfl | rfl | rfl
  · exact nonNativeArm fallback data w h 1 lumaToRgba (by norm_num) hlen
  · exact nonNativeArm fallback data w h 2 lumaAToRgba (by norm_num) hlen
  · exact nonNativeArm fallback data w h 3 rgbToRgba (by norm_num) hlen
  · exact nonNativeArm fallback data w h 3 bgrToRgba (by norm_num) hlen
  · exact nonNativeArm fallback data w h 4 bgraToRgba (by norm_num) hlen

/-- C8 witness: a 1×1 L8 image of one byte converts into a one-pixel
RGBA8 view over the scratch buffer. -/
theorem C8_8bit_formats_witness :
    ([7] : List Byte).length = 1 * 1 * ColorType.L8.channelCount ∧
    (∃ fb2,
      encodeAsImg [] [7] 0 1 1 .L8 = (.ok ⟨.fallback, 1, 1⟩, fb2) ∧
      fb2.length = 1 * 1 * 4 ∧
      Img.viewLen [7] fb2 ⟨.fallback, 1, 1⟩ = 1 * 1) :=
  ⟨by decide, C8_8bit_formats [] [7] 0 1 1 .L8 (Or.inl rfl) (by decide)⟩

/-- C9: when preparation succeeds but the external encoder capability
fails, `write_image` returns an encoding error wrapping the AVIF format
identity with the underlying diagnostic, writes nothing to the sink and
does not retry; when preparation fails, its error is propagated to the
caller unchanged, again with nothing written. -/
theorem C9_failure_propagation (enc : AvifEncoder) (data : List Byte)
    (addr w h : Nat) (color : ColorType)
    (encodeRgba : Img → Config → Except String (List Byte)) :
    (∀ (img : Img) (fb2 : List Byte) (diag : String),
      encodeAsImg enc.fallback data addr w h color = (.ok img, fb2) →
      encodeRgba img enc.config = .error diag →
      writeImage enc data addr w h color encodeRgba =
        (.error (.Encoding .Avif diag), { enc with fallback := fb2 })) ∧
    (∀ (e : ImageError) (fb2 : List Byte),
      encodeAsImg enc.fallback data addr w h color = (.error e, fb2) →
      writeImage enc data addr w h color encodeRgba =
        (.error e, { enc with fallback := fb2 })) := by
  constructor
  · intro img fb2 diag hprep henc
    simp only [writeImage, setColor, hprep, henc]
  · intro e fb2 hprep
    simp only [writeImage, setColor, hprep]

/-- C9 witness: on a valid 1×1 RGBA8 input with an encoder capability
that reports "boom", `write_image` returns the wrapped encoding error;
on an empty buffer, it propagates the preparation error unchanged. In
both cases nothing is written. -/
theorem C9_failure_propagation_witness :
    (encodeAsImg (newWithSpeedQuality 1 100).fallback [1, 2, 3, 4] 0 1 1
        .Rgba8 = (.ok ⟨.input, 1, 1⟩, []) ∧
     writeImage (newWithSpeedQuality 1 100) [1, 2, 3, 4] 0 1 1 .Rgba8
        (fun _ _ => .error "boom") =
      (.error (.Encoding .Avif "boom"),
        { newWithSpeedQuality 1 100 with fallback := [] })) ∧
    (encodeAsImg (newWithSpeedQuality 1 100).fallback [] 0 1 1 .Rgba8 =
      (.error (.Parameter .DimensionMismatch), []) ∧
     writeImage (newWithSpeedQuality 1 100) [] 0 1 1 .Rgba8
        (fun _ _ => .error "boom") =
      (.error (.Parameter .DimensionMismatch),
        { newWithSpeedQuality 1 100 with fallback := [] })) :=
  ⟨⟨rfl,
    (C9_failure_propagation (newWithSpeedQuality 1 100) [1, 2, 3, 4] 0 1 1
        .Rgba8 (fun _ _ => .error "boom")).1
      ⟨.input, 1, 1⟩ [] "boom" rfl rfl⟩,
   ⟨rfl,
    (C9_failure_propagation (newWithSpeedQuality 1 100) [] 0 1 1
        .Rgba8 (fun _ _ => .error "boom")).2
      (.Parameter .DimensionMismatch) [] rfl⟩⟩

end AvifEnc
